import Mathlib

/-!
# Verification of `collector/collector.go` (prometheus-rancher-exporter)

Shallow embedding of the metrics registry (`metrics`), of the thirteen fetchers
launched by the fast loop of `Collect`, of `resetGaugeVecMetrics` and of the body
of the slow loop, followed by the theorems about them.

Modelling conventions
* A fetcher `getX(client, m)` calls exactly one method of `client`; the embedding
  passes the pair `(value, err)` that this call returned as a `Retrieval`.
* The registry is shared by reference in Go (`prometheus.Gauge` is an interface,
  `prometheus.GaugeVec` holds a pointer); here every operation takes the registry
  and returns the registry after the operation.
* `log.Errorf`, `log.Debugf`, `log.Info` and the `time` calls write to the log
  stream only and do not touch the registry; they appear as comments.
* `go f(client, m)` is embedded as the state transformer `f`; a fast tick runs the
  thirteen transformers in launch order. Distinct fetchers write disjoint fields
  (`run_comm`), so every other completion order gives the same registry
  (`runAll_perm`).
* A Go map is the list of its entries in iteration order; its keys are pairwise
  distinct (`GoMap.WF`).
-/

namespace Collector

/-! ## Values and collaborators -/

/-- Gauge values are Go `float64`s; they are represented by rationals (every finite
`float64` is one). -/
abbrev Float64 := Rat

/-- Go conversion `float64(n)` of an `int`: the value of `n` (exact for
`|n| ≤ 2^53`). -/
def float64 (n : Int) : Float64 := (n : Rat)

/-- The values of one label tuple, in the order the vector declares its labels. -/
abbrev LabelValues := List String

/-- Modelled from the spec: `prometheus.Gauge` of the external metrics library, a
single numeric value with no labels; `Set` overwrites it (last write wins). -/
abbrev Gauge := Float64

/-- Modelled from the spec: `prometheus.GaugeVec` of the external metrics library, a
mapping from label tuples to numeric values; `none` is a tuple that is not present. -/
abbrev GaugeVec := LabelValues → Option Float64

/-- Modelled from the spec: `GaugeVec.Reset()` of the external metrics library,
"clear all entries of a vector". -/
def GaugeVec.Reset (_v : GaugeVec) : GaugeVec := fun _ => none

/-- Modelled from the spec: `v.WithLabelValues(lvs...).Set(x)` of the external metrics
library, "set label-tuple value": the entry of `lvs` becomes `x`, created when
absent; distinct tuples are independent entries. -/
def GaugeVec.WithLabelValuesSet (v : GaugeVec) (lvs : LabelValues) (x : Float64) :
    GaugeVec :=
  fun k => if k = lvs then some x else v k

/-- A Go `map[string]β` as the list of its entries in the order `range` visits them;
a nil map is the empty list. The keys of a Go map are pairwise distinct. -/
abbrev GoMap (β : Type) := List (String × β)

/-- The keys of a Go map are pairwise distinct. -/
def GoMap.WF {β : Type} (d : GoMap β) : Prop := (d.map Prod.fst).Nodup

instance {β : Type} (d : GoMap β) : Decidable d.WF :=
  inferInstanceAs (Decidable (d.map Prod.fst).Nodup)

/-- Go map index `d[k]` on a `map[string]int`: the zero value when `k` is absent. -/
def GoMap.index (d : GoMap Int) (k : String) : Int := (d.lookup k).getD 0

/-- What one call of a `rancher.Client` method returned: the value and the error
(`none` is Go's `nil` error). -/
structure Retrieval (α : Type) where
  val : α
  err : Option String

/-- A successful retrieval of `a`. -/
def Retrieval.ok {α : Type} (a : α) : Retrieval α := ⟨a, none⟩

/-- Modelled from the spec: element of the list returned by
`GetDownstreamClusterVersions` (package `query/rancher`), with the fields the
collector reads. -/
structure ClusterVersion where
  Name : String
  Version : String

/-- Modelled from the spec: element of the list returned by `GetProjectLabels`
(package `query/rancher`), with the fields the collector reads. -/
structure ProjectLabel where
  ProjectClusterName : String
  Projectid : String
  ProjectDisplayName : String
  LabelKey : String
  LabelValue : String

/-- Modelled from the spec: element of the list returned by `GetProjectAnnotations`
(package `query/rancher`), with the fields the collector reads. -/
structure ProjectAnnotation where
  ProjectClusterName : String
  Projectid : String
  ProjectDisplayName : String
  AnnotationKey : String
  AnnotationValue : String

/-- Modelled from the spec: element of the list returned by `GetProjectResourceQuota`
(package `query/rancher`), with the fields the collector reads. -/
structure ProjectResource where
  ProjectClusterName : String
  Projectid : String
  ProjectDisplayName : String
  ResourceKey : String
  ResourceType : String
  ResourceValue : Float64

/-! ## The registry -/

/-- The `metrics` struct: every published metric. -/
@[ext]
structure metrics where
  installedRancherVersion : GaugeVec
  latestRancherVersion : GaugeVec
  managedClusterCount : Gauge
  managedK3sClusterCount : Gauge
  managedRKEClusterCount : Gauge
  managedRKE2ClusterCount : Gauge
  managedEKSClusterCount : Gauge
  managedAKSClusterCount : Gauge
  managedGKEClusterCount : Gauge
  managedNodeCount : Gauge
  clusterConditionConnected : GaugeVec
  clusterConditionNotConnected : GaugeVec
  downstreamClusterVersion : GaugeVec
  tokenCount : Gauge
  userCount : Gauge
  projectCount : Gauge
  projectLabels : GaugeVec
  projectAnnotations : GaugeVec
  projectResources : GaugeVec
  rancherCustomResources : GaugeVec

/-- The registry returned by `new()`: fresh vectors are empty, fresh gauges are 0. -/
def new : metrics where
  installedRancherVersion := fun _ => none
  latestRancherVersion := fun _ => none
  managedClusterCount := 0
  managedK3sClusterCount := 0
  managedRKEClusterCount := 0
  managedRKE2ClusterCount := 0
  managedEKSClusterCount := 0
  managedAKSClusterCount := 0
  managedGKEClusterCount := 0
  managedNodeCount := 0
  clusterConditionConnected := GaugeVec.Reset (fun _ => none)
  clusterConditionNotConnected := GaugeVec.Reset (fun _ => none)
  downstreamClusterVersion := GaugeVec.Reset (fun _ => none)
  tokenCount := 0
  userCount := 0
  projectCount := 0
  projectLabels := fun _ => none
  projectAnnotations := fun _ => none
  projectResources := fun _ => none
  rancherCustomResources := fun _ => none

/-! ## The fetchers -/

/-- Source `getInstalledRancherVersion`: an error is logged, and the entry of the
returned string is set to 1 in either case. -/
def getInstalledRancherVersion (r : Retrieval String) (m : metrics) : metrics :=
  -- if err != nil { log.Errorf(...) }
  { m with installedRancherVersion := m.installedRancherVersion.WithLabelValuesSet [r.val] 1 }

/-- Source `getClusterConnectedState`: an error is logged; the loop over the returned
map writes both connectivity vectors for each cluster name. -/
def getClusterConnectedState (r : Retrieval (GoMap Bool)) (m : metrics) : metrics :=
  -- if err != nil { log.Errorf(...) }
  r.val.foldl (fun m kv =>
    if kv.2 = true then
      let m := { m with
        clusterConditionConnected := m.clusterConditionConnected.WithLabelValuesSet [kv.1] 1 }
      { m with
        clusterConditionNotConnected :=
          m.clusterConditionNotConnected.WithLabelValuesSet [kv.1] 0 }
    else
      let m := { m with
        clusterConditionNotConnected :=
          m.clusterConditionNotConnected.WithLabelValuesSet [kv.1] 1 }
      { m with
        clusterConditionConnected := m.clusterConditionConnected.WithLabelValuesSet [kv.1] 0 }) m

/-- Source `getNumberOfClusters`: an error is logged; the gauge is set to the returned
number in either case. -/
def getNumberOfClusters (r : Retrieval Int) (m : metrics) : metrics :=
  -- if err != nil { log.Errorf(...) }
  { m with managedClusterCount := float64 r.val }

/-- Source `getDistributions`: an error is logged; the six distribution gauges are set
from the returned map in either case. -/
def getDistributions (r : Retrieval (GoMap Int)) (m : metrics) : metrics :=
  -- if err != nil { log.Errorf(...) }
  let m := { m with managedRKEClusterCount := float64 (r.val.index "rke") }
  let m := { m with managedRKE2ClusterCount := float64 (r.val.index "rke2") }
  let m := { m with managedK3sClusterCount := float64 (r.val.index "k3s") }
  let m := { m with managedEKSClusterCount := float64 (r.val.index "eks") }
  let m := { m with managedAKSClusterCount := float64 (r.val.index "aks") }
  { m with managedGKEClusterCount := float64 (r.val.index "gke") }

/-- Source `getNumberOfNodes`: an error is logged; the gauge is set to the returned
number in either case. -/
def getNumberOfNodes (r : Retrieval Int) (m : metrics) : metrics :=
  -- if err != nil { log.Errorf(...) }
  { m with managedNodeCount := float64 r.val }

/-- Source `getDownstreamClusterVersions`: an error is logged; the loop over the
returned list sets the entry of each (name, version) to 1. -/
def getDownstreamClusterVersions (r : Retrieval (List ClusterVersion)) (m : metrics) :
    metrics :=
  -- if err != nil { log.Errorf(...) }
  r.val.foldl (fun m value =>
    { m with
      downstreamClusterVersion :=
        m.downstreamClusterVersion.WithLabelValuesSet [value.Name, value.Version] 1 }) m

/-- Source `getNumberOfUsers`: an error is logged; the gauge is set to the returned
number in either case. -/
def getNumberOfUsers (r : Retrieval Int) (m : metrics) : metrics :=
  -- if err != nil { log.Errorf(...) }
  { m with userCount := float64 r.val }

/-- Source `getNumberOfTokens`: an error is logged; the gauge is set to the returned
number in either case. -/
def getNumberOfTokens (r : Retrieval Int) (m : metrics) : metrics :=
  -- if err != nil { log.Errorf(...) }
  { m with tokenCount := float64 r.val }

/-- Source `getNumberOfProjects`: an error is logged; the gauge is set to the returned
number in either case. -/
def getNumberOfProjects (r : Retrieval Int) (m : metrics) : metrics :=
  -- if err != nil { log.Errorf(...) }
  { m with projectCount := float64 r.val }

/-- The label tuple `getProjectLabels` writes for one returned entry. -/
def ProjectLabel.labelValues (value : ProjectLabel) : LabelValues :=
  [value.ProjectClusterName, value.Projectid, value.ProjectDisplayName, value.LabelKey,
    value.LabelValue]

/-- Source `getProjectLabels`: an error is logged; the loop over the returned list
sets the entry of each project label to 1. -/
def getProjectLabels (r : Retrieval (List ProjectLabel)) (m : metrics) : metrics :=
  -- if err != nil { log.Errorf(...) }
  r.val.foldl (fun m value =>
    { m with projectLabels := m.projectLabels.WithLabelValuesSet value.labelValues 1 }) m

/-- The label tuple `getProjectAnnotations` writes for one returned entry. -/
def ProjectAnnotation.labelValues (value : ProjectAnnotation) : LabelValues :=
  [value.ProjectClusterName, value.Projectid, value.ProjectDisplayName,
    value.AnnotationKey, value.AnnotationValue]

/-- Source `getProjectAnnotations`: an error is logged; the loop over the returned
list sets the entry of each project annotation to 1. -/
def getProjectAnnotations (r : Retrieval (List ProjectAnnotation)) (m : metrics) :
    metrics :=
  -- if err != nil { log.Errorf(...) }
  r.val.foldl (fun m value =>
    { m with
      projectAnnotations := m.projectAnnotations.WithLabelValuesSet value.labelValues 1 }) m

/-- The label tuple `getProjectResources` writes for one returned entry. -/
def ProjectResource.labelValues (value : ProjectResource) : LabelValues :=
  [value.ProjectClusterName, value.Projectid, value.ProjectDisplayName,
    value.ResourceKey, value.ResourceType]

/-- Source `getProjectResources`: an error is logged; the loop over the returned list
sets the entry of each quota to its value. -/
def getProjectResources (r : Retrieval (List ProjectResource)) (m : metrics) : metrics :=
  -- if err != nil { log.Errorf(...) }
  r.val.foldl (fun m value =>
    { m with
      projectResources :=
        m.projectResources.WithLabelValuesSet value.labelValues value.ResourceValue }) m

/-- Source `getRancherCustomResources`: returns at once on an error; otherwise the
loop over the returned map sets the entry of each resource name to its count. -/
def getRancherCustomResources (r : Retrieval (GoMap Int)) (m : metrics) : metrics :=
  match r.err with
  | some _ => m
  | none =>
    r.val.foldl (fun m kv =>
      { m with
        rancherCustomResources :=
          m.rancherCustomResources.WithLabelValuesSet [kv.1] (float64 kv.2) }) m

/-- Source `resetGaugeVecMetrics`: seven `Reset()` calls (the eighth, on
`rancherCustomResources`, is commented out in the source). -/
def resetGaugeVecMetrics (m : metrics) : metrics :=
  let m := { m with installedRancherVersion := m.installedRancherVersion.Reset }
  let m := { m with clusterConditionConnected := m.clusterConditionConnected.Reset }
  let m := { m with clusterConditionNotConnected := m.clusterConditionNotConnected.Reset }
  let m := { m with downstreamClusterVersion := m.downstreamClusterVersion.Reset }
  let m := { m with projectLabels := m.projectLabels.Reset }
  let m := { m with projectAnnotations := m.projectAnnotations.Reset }
  { m with projectResources := m.projectResources.Reset }

/-! ## The two loops of `Collect` -/

/-- Body of the slow loop of `Collect` (one tick): `Reset` of the latest-version
vector, then the entry of the returned string is set to 1; an error is logged. -/
def slowTick (r : Retrieval String) (m : metrics) : metrics :=
  let m := { m with latestRancherVersion := m.latestRancherVersion.Reset }
  -- if err != nil { log.Errorf(...) }
  { m with latestRancherVersion := m.latestRancherVersion.WithLabelValuesSet [r.val] 1 }

/-- One fetcher launched by the fast loop, with what its client call returned. -/
inductive FetcherCall where
  | installedRancherVersion (r : Retrieval String)
  | clusterConnectedState (r : Retrieval (GoMap Bool))
  | numberOfClusters (r : Retrieval Int)
  | distributions (r : Retrieval (GoMap Int))
  | numberOfNodes (r : Retrieval Int)
  | downstreamClusterVersions (r : Retrieval (List ClusterVersion))
  | numberOfTokens (r : Retrieval Int)
  | numberOfUsers (r : Retrieval Int)
  | numberOfProjects (r : Retrieval Int)
  | projectLabels (r : Retrieval (List ProjectLabel))
  | projectAnnotations (r : Retrieval (List ProjectAnnotation))
  | projectResources (r : Retrieval (List ProjectResource))
  | rancherCustomResources (r : Retrieval (GoMap Int))

/-- Which of the thirteen fetchers a call is (position in launch order). -/
def FetcherCall.kind : FetcherCall → Nat
  | .installedRancherVersion _ => 0
  | .clusterConnectedState _ => 1
  | .numberOfClusters _ => 2
  | .distributions _ => 3
  | .numberOfNodes _ => 4
  | .downstreamClusterVersions _ => 5
  | .numberOfTokens _ => 6
  | .numberOfUsers _ => 7
  | .numberOfProjects _ => 8
  | .projectLabels _ => 9
  | .projectAnnotations _ => 10
  | .projectResources _ => 11
  | .rancherCustomResources _ => 12

/-- Running one fetcher to completion. -/
def FetcherCall.run : FetcherCall → metrics → metrics
  | .installedRancherVersion r => getInstalledRancherVersion r
  | .clusterConnectedState r => getClusterConnectedState r
  | .numberOfClusters r => getNumberOfClusters r
  | .distributions r => getDistributions r
  | .numberOfNodes r => getNumberOfNodes r
  | .downstreamClusterVersions r => getDownstreamClusterVersions r
  | .numberOfTokens r => getNumberOfTokens r
  | .numberOfUsers r => getNumberOfUsers r
  | .numberOfProjects r => getNumberOfProjects r
  | .projectLabels r => getProjectLabels r
  | .projectAnnotations r => getProjectAnnotations r
  | .projectResources r => getProjectResources r
  | .rancherCustomResources r => getRancherCustomResources r

/-- What the thirteen client calls of one fast tick returned. -/
structure ClientResults where
  installedRancherVersion : Retrieval String
  clusterConnectedState : Retrieval (GoMap Bool)
  numberOfManagedClusters : Retrieval Int
  k8sDistributions : Retrieval (GoMap Int)
  numberOfManagedNodes : Retrieval Int
  downstreamClusterVersions : Retrieval (List ClusterVersion)
  numberOfTokens : Retrieval Int
  numberOfUsers : Retrieval Int
  numberofProjects : Retrieval Int
  projectLabels : Retrieval (List ProjectLabel)
  projectAnnotations : Retrieval (List ProjectAnnotation)
  projectResourceQuota : Retrieval (List ProjectResource)
  rancherCustomResourceCount : Retrieval (GoMap Int)

/-- Body of the fast loop of `Collect` (one tick): `resetGaugeVecMetrics`, then the
thirteen fetchers in launch order, each run to completion. -/
def fastTick (c : ClientResults) (m : metrics) : metrics :=
  let m := resetGaugeVecMetrics m
  -- log.Info("updating rancher metrics")
  let m := getInstalledRancherVersion c.installedRancherVersion m
  let m := getClusterConnectedState c.clusterConnectedState m
  let m := getNumberOfClusters c.numberOfManagedClusters m
  let m := getDistributions c.k8sDistributions m
  let m := getNumberOfNodes c.numberOfManagedNodes m
  let m := getDownstreamClusterVersions c.downstreamClusterVersions m
  let m := getNumberOfTokens c.numberOfTokens m
  let m := getNumberOfUsers c.numberOfUsers m
  let m := getNumberOfProjects c.numberofProjects m
  let m := getProjectLabels c.projectLabels m
  let m := getProjectAnnotations c.projectAnnotations m
  let m := getProjectResources c.projectResourceQuota m
  getRancherCustomResources c.rancherCustomResourceCount m

/-! ## Batches of writes, fetcher calls and sample retrievals -/

/-- A batch of writes `(label tuple, value)` applied to a vector in list order. -/
def writeAll (ws : List (LabelValues × Float64)) (v : GaugeVec) : GaugeVec :=
  ws.foldl (fun v w => v.WithLabelValuesSet w.1 w.2) v

/-- The vector `top` laid over `bottom`: an entry of `top` hides that of `bottom`. -/
def overlay (top bottom : GaugeVec) : GaugeVec :=
  fun k => match top k with
    | some x => some x
    | none => bottom k

/-- The empty vector. -/
def emptyVec : GaugeVec := fun _ => none

/-- The writes of `getClusterConnectedState` into the connected vector. -/
def connectedWrites (d : GoMap Bool) : List (LabelValues × Float64) :=
  d.map (fun kv => ([kv.1], if kv.2 = true then 1 else 0))

/-- The writes of `getClusterConnectedState` into the not-connected vector. -/
def notConnectedWrites (d : GoMap Bool) : List (LabelValues × Float64) :=
  d.map (fun kv => ([kv.1], if kv.2 = true then 0 else 1))

/-- The writes of `getDownstreamClusterVersions`. -/
def versionWrites (l : List ClusterVersion) : List (LabelValues × Float64) :=
  l.map (fun value => ([value.Name, value.Version], 1))

/-- The writes of `getProjectLabels`. -/
def labelWrites (l : List ProjectLabel) : List (LabelValues × Float64) :=
  l.map (fun value => (value.labelValues, 1))

/-- The writes of `getProjectAnnotations`. -/
def annotationWrites (l : List ProjectAnnotation) : List (LabelValues × Float64) :=
  l.map (fun value => (value.labelValues, 1))

/-- The writes of `getProjectResources`. -/
def resourceWrites (l : List ProjectResource) : List (LabelValues × Float64) :=
  l.map (fun value => (value.labelValues, value.ResourceValue))

/-- The writes of `getRancherCustomResources` on a successful retrieval. -/
def customResourceWrites (d : GoMap Int) : List (LabelValues × Float64) :=
  d.map (fun kv => ([kv.1], float64 kv.2))

/-- The writes `getRancherCustomResources` performs: none when the retrieval carries
an error. -/
def customResourceWritesOf (r : Retrieval (GoMap Int)) : List (LabelValues × Float64) :=
  match r.err with
  | some _ => []
  | none => customResourceWrites r.val

/-- The thirteen fetcher calls of one fast tick, in launch order. -/
def ClientResults.calls (c : ClientResults) : List FetcherCall :=
  [.installedRancherVersion c.installedRancherVersion,
   .clusterConnectedState c.clusterConnectedState,
   .numberOfClusters c.numberOfManagedClusters,
   .distributions c.k8sDistributions,
   .numberOfNodes c.numberOfManagedNodes,
   .downstreamClusterVersions c.downstreamClusterVersions,
   .numberOfTokens c.numberOfTokens,
   .numberOfUsers c.numberOfUsers,
   .numberOfProjects c.numberofProjects,
   .projectLabels c.projectLabels,
   .projectAnnotations c.projectAnnotations,
   .projectResources c.projectResourceQuota,
   .rancherCustomResources c.rancherCustomResourceCount]

/-- Fetchers run to completion one after the other, in list order. -/
def runAll (fs : List FetcherCall) (m : metrics) : metrics :=
  fs.foldl (fun m f => f.run m) m

/-- Every one of the thirteen retrievals of a tick returned a nil error. -/
def ClientResults.Successful (c : ClientResults) : Prop :=
  c.installedRancherVersion.err = none ∧ c.clusterConnectedState.err = none ∧
  c.numberOfManagedClusters.err = none ∧ c.k8sDistributions.err = none ∧
  c.numberOfManagedNodes.err = none ∧ c.downstreamClusterVersions.err = none ∧
  c.numberOfTokens.err = none ∧ c.numberOfUsers.err = none ∧
  c.numberofProjects.err = none ∧ c.projectLabels.err = none ∧
  c.projectAnnotations.err = none ∧ c.projectResourceQuota.err = none ∧
  c.rancherCustomResourceCount.err = none

instance (c : ClientResults) : Decidable c.Successful := by
  unfold ClientResults.Successful
  infer_instance

/-- A tick on a Rancher without clusters, projects or custom resources: every
retrieval succeeds, the collections are empty. -/
def quietResults : ClientResults where
  installedRancherVersion := Retrieval.ok "v2.6.3"
  clusterConnectedState := Retrieval.ok []
  numberOfManagedClusters := Retrieval.ok 0
  k8sDistributions := Retrieval.ok []
  numberOfManagedNodes := Retrieval.ok 0
  downstreamClusterVersions := Retrieval.ok []
  numberOfTokens := Retrieval.ok 0
  numberOfUsers := Retrieval.ok 0
  numberofProjects := Retrieval.ok 0
  projectLabels := Retrieval.ok []
  projectAnnotations := Retrieval.ok []
  projectResourceQuota := Retrieval.ok []
  rancherCustomResourceCount := Retrieval.ok []

/-- The same tick, except that the custom-resource count reports 3 resources of one
kind. -/
def oneKindResults : ClientResults :=
  { quietResults with
    rancherCustomResourceCount := Retrieval.ok [("clusters.management.cattle.io", 3)] }

/-! ## Auxiliary facts about writes into a vector -/

theorem reset_eq (v : GaugeVec) : v.Reset = emptyVec := rfl

theorem writeAll_nil (v : GaugeVec) : writeAll [] v = v := rfl

theorem writeAll_cons (w : LabelValues × Float64) (ws : List (LabelValues × Float64))
    (v : GaugeVec) : writeAll (w :: ws) v = writeAll ws (v.WithLabelValuesSet w.1 w.2) := rfl

theorem writeAll_append (ws ws2 : List (LabelValues × Float64)) (v : GaugeVec) :
    writeAll (ws ++ ws2) v = writeAll ws2 (writeAll ws v) := by
  simp [writeAll, List.foldl_append]

theorem writeAll_overlay (ws : List (LabelValues × Float64)) (v : GaugeVec) :
    writeAll ws v = overlay (writeAll ws emptyVec) v := by
  induction ws generalizing v with
  | nil => rfl
  | cons w ws ih =>
    rw [writeAll_cons, writeAll_cons, ih, ih (emptyVec.WithLabelValuesSet w.1 w.2)]
    funext k
    simp only [overlay, GaugeVec.WithLabelValuesSet, emptyVec]
    cases writeAll ws emptyVec k with
    | some x => rfl
    | none => by_cases h : k = w.1 <;> simp [h]

theorem overlay_idem (t b : GaugeVec) : overlay t (overlay t b) = overlay t b := by
  funext k
  simp only [overlay]
  cases t k <;> rfl

theorem writeAll_idem (ws : List (LabelValues × Float64)) (v : GaugeVec) :
    writeAll ws (writeAll ws v) = writeAll ws v := by
  rw [writeAll_overlay ws v, writeAll_overlay ws (overlay _ v), overlay_idem]

theorem writeAll_isSome (ws : List (LabelValues × Float64)) (v : GaugeVec)
    (k : LabelValues) :
    (writeAll ws v k).isSome = true ↔ k ∈ ws.map Prod.fst ∨ (v k).isSome = true := by
  induction ws generalizing v with
  | nil => simp [writeAll_nil]
  | cons w ws ih =>
    rw [writeAll_cons, ih]
    by_cases h : k = w.1
    · simp [GaugeVec.WithLabelValuesSet, h]
    · simp [GaugeVec.WithLabelValuesSet, h]

theorem writeAll_const (c : Float64) (ws : List (LabelValues × Float64))
    (hc : ∀ w ∈ ws, w.2 = c) (v : GaugeVec) (k : LabelValues) :
    writeAll ws v k = if k ∈ ws.map Prod.fst then some c else v k := by
  induction ws generalizing v with
  | nil => simp [writeAll_nil]
  | cons w ws ih =>
    rw [writeAll_cons, ih (fun x hx => hc x (List.mem_cons_of_mem _ hx))]
    have hw : w.2 = c := hc w (List.mem_cons_self _ _)
    by_cases h1 : k ∈ ws.map Prod.fst
    · simp [h1]
    · by_cases h2 : k = w.1
      · simp [h1, h2, GaugeVec.WithLabelValuesSet, hw]
      · simp only [h1, if_false, GaugeVec.WithLabelValuesSet, h2, List.map_cons,
          List.mem_cons, or_self]

theorem writeAll_not_mem (ws : List (LabelValues × Float64)) (v : GaugeVec)
    (k : LabelValues) (hk : k ∉ ws.map Prod.fst) : writeAll ws v k = v k := by
  induction ws generalizing v with
  | nil => rfl
  | cons w ws ih =>
    simp only [List.map_cons, List.mem_cons, not_or] at hk
    rw [writeAll_cons, ih _ hk.2]
    simp [GaugeVec.WithLabelValuesSet, hk.1]

theorem writeAll_nodup (ws : List (LabelValues × Float64)) (hn : (ws.map Prod.fst).Nodup)
    (v : GaugeVec) (w : LabelValues × Float64) (hw : w ∈ ws) :
    writeAll ws v w.1 = some w.2 := by
  induction ws generalizing v with
  | nil => simp at hw
  | cons a ws ih =>
    simp only [List.map_cons, List.nodup_cons] at hn
    rw [writeAll_cons]
    rcases List.mem_cons.1 hw with h | h
    · subst h
      rw [writeAll_not_mem _ _ _ hn.1]
      simp [GaugeVec.WithLabelValuesSet]
    · exact ih hn.2 _ h

/-! ## Each loop fetcher as one batch of writes -/

theorem getClusterConnectedState_eq (r : Retrieval (GoMap Bool)) (m : metrics) :
    getClusterConnectedState r m =
      { m with
        clusterConditionConnected :=
          writeAll (connectedWrites r.val) m.clusterConditionConnected
        clusterConditionNotConnected :=
          writeAll (notConnectedWrites r.val) m.clusterConditionNotConnected } := by
  unfold getClusterConnectedState connectedWrites notConnectedWrites
  generalize r.val = l
  induction l generalizing m with
  | nil => rfl
  | cons kv l ih =>
    rw [List.foldl_cons, ih]
    by_cases h : kv.2 = true <;> simp [h, writeAll_cons]

theorem getDownstreamClusterVersions_eq (r : Retrieval (List ClusterVersion))
    (m : metrics) :
    getDownstreamClusterVersions r m =
      { m with
        downstreamClusterVersion :=
          writeAll (versionWrites r.val) m.downstreamClusterVersion } := by
  unfold getDownstreamClusterVersions versionWrites
  generalize r.val = l
  induction l generalizing m with
  | nil => rfl
  | cons kv l ih => rw [List.foldl_cons, ih]; rfl

theorem getProjectLabels_eq (r : Retrieval (List ProjectLabel)) (m : metrics) :
    getProjectLabels r m =
      { m with projectLabels := writeAll (labelWrites r.val) m.projectLabels } := by
  unfold getProjectLabels labelWrites
  generalize r.val = l
  induction l generalizing m with
  | nil => rfl
  | cons kv l ih => rw [List.foldl_cons, ih]; rfl

theorem getProjectAnnotations_eq (r : Retrieval (List ProjectAnnotation)) (m : metrics) :
    getProjectAnnotations r m =
      { m with
        projectAnnotations := writeAll (annotationWrites r.val) m.projectAnnotations } := by
  unfold getProjectAnnotations annotationWrites
  generalize r.val = l
  induction l generalizing m with
  | nil => rfl
  | cons kv l ih => rw [List.foldl_cons, ih]; rfl

theorem getProjectResources_eq (r : Retrieval (List ProjectResource)) (m : metrics) :
    getProjectResources r m =
      { m with
        projectResources := writeAll (resourceWrites r.val) m.projectResources } := by
  unfold getProjectResources resourceWrites
  generalize r.val = l
  induction l generalizing m with
  | nil => rfl
  | cons kv l ih => rw [List.foldl_cons, ih]; rfl

theorem getRancherCustomResources_eq (r : Retrieval (GoMap Int)) (m : metrics) :
    getRancherCustomResources r m =
      { m with
        rancherCustomResources :=
          writeAll (customResourceWritesOf r) m.rancherCustomResources } := by
  unfold getRancherCustomResources customResourceWritesOf customResourceWrites
  cases r.err with
  | some e => rfl
  | none =>
    simp only
    generalize r.val = l
    induction l generalizing m with
    | nil => rfl
    | cons kv l ih => rw [List.foldl_cons, ih]; rfl

/-! ## Go map index -/

theorem index_of_not_mem (d : GoMap Int) (k : String) (hk : k ∉ d.map Prod.fst) :
    d.index k = 0 := by
  have : d.lookup k = none := by
    induction d with
    | nil => rfl
    | cons kv d ih =>
      simp only [List.map_cons, List.mem_cons, not_or] at hk
      obtain ⟨a, b⟩ := kv
      have hne : (k == a) = false := by simpa using hk.1
      simp only [List.lookup, hne]
      exact ih hk.2
  simp [GoMap.index, this]

theorem index_of_mem (d : GoMap Int) (hd : d.WF) (k : String) (n : Int)
    (hmem : (k, n) ∈ d) : d.index k = n := by
  have : d.lookup k = some n := by
    induction d with
    | nil => simp at hmem
    | cons kv d ih =>
      obtain ⟨a, b⟩ := kv
      simp only [GoMap.WF, List.map_cons, List.nodup_cons] at hd
      rcases List.mem_cons.1 hmem with h | h
      · cases h
        simp [List.lookup]
      · have hne : (k == a) = false := by
          have : k ≠ a := by
            rintro rfl
            exact hd.1 (List.mem_map_of_mem Prod.fst h)
          simpa using this
        simp only [List.lookup, hne]
        exact ih hd.2 h
  simp [GoMap.index, this]

/-! ## `resetGaugeVecMetrics` -/

/-- Claim C5: for every registry state, `resetGaugeVecMetrics` leaves exactly seven
vectors empty (installed version, connected, not-connected, downstream cluster
version, project labels, project annotations, project resource quota) and leaves
every scalar gauge, the custom-resource-count vector and the latest-version vector
as they were. -/
theorem resetGaugeVecMetrics_clears_seven (m : metrics) :
    (∀ k, (resetGaugeVecMetrics m).installedRancherVersion k = none) ∧
    (∀ k, (resetGaugeVecMetrics m).clusterConditionConnected k = none) ∧
    (∀ k, (resetGaugeVecMetrics m).clusterConditionNotConnected k = none) ∧
    (∀ k, (resetGaugeVecMetrics m).downstreamClusterVersion k = none) ∧
    (∀ k, (resetGaugeVecMetrics m).projectLabels k = none) ∧
    (∀ k, (resetGaugeVecMetrics m).projectAnnotations k = none) ∧
    (∀ k, (resetGaugeVecMetrics m).projectResources k = none) ∧
    (resetGaugeVecMetrics m).managedClusterCount = m.managedClusterCount ∧
    (resetGaugeVecMetrics m).managedK3sClusterCount = m.managedK3sClusterCount ∧
    (resetGaugeVecMetrics m).managedRKEClusterCount = m.managedRKEClusterCount ∧
    (resetGaugeVecMetrics m).managedRKE2ClusterCount = m.managedRKE2ClusterCount ∧
    (resetGaugeVecMetrics m).managedEKSClusterCount = m.managedEKSClusterCount ∧
    (resetGaugeVecMetrics m).managedAKSClusterCount = m.managedAKSClusterCount ∧
    (resetGaugeVecMetrics m).managedGKEClusterCount = m.managedGKEClusterCount ∧
    (resetGaugeVecMetrics m).managedNodeCount = m.managedNodeCount ∧
    (resetGaugeVecMetrics m).tokenCount = m.tokenCount ∧
    (resetGaugeVecMetrics m).userCount = m.userCount ∧
    (resetGaugeVecMetrics m).projectCount = m.projectCount ∧
    (resetGaugeVecMetrics m).rancherCustomResources = m.rancherCustomResources ∧
    (resetGaugeVecMetrics m).latestRancherVersion = m.latestRancherVersion := by
  refine ⟨?_, ?_, ?_, ?_, ?_, ?_, ?_, ?_, ?_, ?_, ?_, ?_, ?_, ?_, ?_, ?_, ?_, ?_, ?_, ?_⟩
  all_goals first | rfl | (intro k; rfl)

/-! ## `getDistributions` -/

/-- Claim C6: for every registry state and every distribution mapping `d` of a
successful `GetK8sDistributions`, after `getDistributions` the gauges managed rke,
rke2, k3s, eks, aks, gke equal `d["rke"]`, `d["rke2"]`, `d["k3s"]`, `d["eks"]`,
`d["aks"]`, `d["gke"]`, where `d[k]` is the count stored under `k` and 0 for a key
absent from `d` (so that `{rke:2, rke2:5, k3s:0}` gives 2, 5, 0, 0, 0, 0), and every
other metric is unchanged: putting the six old gauge values back gives the old
registry. -/
theorem getDistributions_sets_six (m : metrics) (d : GoMap Int) :
    (getDistributions (Retrieval.ok d) m).managedRKEClusterCount = float64 (d.index "rke") ∧
    (getDistributions (Retrieval.ok d) m).managedRKE2ClusterCount
      = float64 (d.index "rke2") ∧
    (getDistributions (Retrieval.ok d) m).managedK3sClusterCount = float64 (d.index "k3s") ∧
    (getDistributions (Retrieval.ok d) m).managedEKSClusterCount = float64 (d.index "eks") ∧
    (getDistributions (Retrieval.ok d) m).managedAKSClusterCount = float64 (d.index "aks") ∧
    (getDistributions (Retrieval.ok d) m).managedGKEClusterCount = float64 (d.index "gke") ∧
    (∀ k, k ∉ d.map Prod.fst → float64 (d.index k) = 0) ∧
    (∀ k n, d.WF → (k, n) ∈ d → float64 (d.index k) = float64 n) ∧
    { getDistributions (Retrieval.ok d) m with
      managedRKEClusterCount := m.managedRKEClusterCount
      managedRKE2ClusterCount := m.managedRKE2ClusterCount
      managedK3sClusterCount := m.managedK3sClusterCount
      managedEKSClusterCount := m.managedEKSClusterCount
      managedAKSClusterCount := m.managedAKSClusterCount
      managedGKEClusterCount := m.managedGKEClusterCount } = m ∧
    (getDistributions (Retrieval.ok [("rke", 2), ("rke2", 5),
        ("k3s", 0)]) m).managedRKEClusterCount = 2 ∧
    (getDistributions (Retrieval.ok [("rke", 2), ("rke2", 5),
        ("k3s", 0)]) m).managedRKE2ClusterCount = 5 ∧
    (getDistributions (Retrieval.ok [("rke", 2), ("rke2", 5),
        ("k3s", 0)]) m).managedK3sClusterCount = 0 ∧
    (getDistributions (Retrieval.ok [("rke", 2), ("rke2", 5),
        ("k3s", 0)]) m).managedEKSClusterCount = 0 ∧
    (getDistributions (Retrieval.ok [("rke", 2), ("rke2", 5),
        ("k3s", 0)]) m).managedAKSClusterCount = 0 ∧
    (getDistributions (Retrieval.ok [("rke", 2), ("rke2", 5),
        ("k3s", 0)]) m).managedGKEClusterCount = 0 := by
  refine ⟨rfl, rfl, rfl, rfl, rfl, rfl, ?_, ?_, rfl, ?_⟩
  · intro k hk
    simp [index_of_not_mem d k hk, float64]
  · intro k n hd hmem
    rw [index_of_mem d hd k n hmem]
  · simp [getDistributions, Retrieval.ok, GoMap.index, List.lookup, float64]

/-- Instance of `getDistributions_sets_six` at the start-up registry and the mapping
`{rke:2, rke2:5, k3s:0}`: `d["eks"]` is 0 because `eks` is absent, `d["rke2"]` is the
stored 5. -/
theorem getDistributions_sets_six_witness :
    "eks" ∉ ([("rke", 2), ("rke2", 5), ("k3s", 0)] : GoMap Int).map Prod.fst ∧
    GoMap.WF ([("rke", 2), ("rke2", 5), ("k3s", 0)] : GoMap Int) ∧
    (("rke2", 5) : String × Int) ∈ ([("rke", 2), ("rke2", 5), ("k3s", 0)] : GoMap Int) ∧
    float64 (GoMap.index [("rke", 2), ("rke2", 5), ("k3s", 0)] "eks") = 0 ∧
    float64 (GoMap.index [("rke", 2), ("rke2", 5), ("k3s", 0)] "rke2") = float64 5 :=
  ⟨by decide, by decide, by simp,
    (getDistributions_sets_six new [("rke", 2), ("rke2", 5), ("k3s", 0)]).2.2.2.2.2.2.1
      "eks" (by decide),
    (getDistributions_sets_six new [("rke", 2), ("rke2", 5), ("k3s", 0)]).2.2.2.2.2.2.2.1
      "rke2" 5 (by decide) (by simp)⟩

/-! ## The slow loop -/

/-- Claim C10: for every registry state and every version string `v` of a successful
`GetLatestRancherVersion`, after one slow-loop tick body the latest-version vector
contains exactly one entry, `version = v` with value 1, whatever it contained before,
and every other metric is unchanged: putting the old latest-version vector back gives
the old registry. -/
theorem slowTick_single_entry (m : metrics) (v : String) :
    (∀ k, (slowTick (Retrieval.ok v) m).latestRancherVersion k
      = if k = [v] then some 1 else none) ∧
    { slowTick (Retrieval.ok v) m with latestRancherVersion := m.latestRancherVersion }
      = m :=
  ⟨fun _ => rfl, rfl⟩

/-! ## `getProjectLabels` after a reset -/

/-- Claim C8: for every prior registry state and every list `L` of a successful
`GetProjectLabels`, after `resetGaugeVecMetrics` followed by `getProjectLabels` the
project-labels vector contains exactly the label tuples (cluster name, project id,
project display name, label key, label value) of the entries of `L`, each with value
1; when `L` is empty the vector has no entry, whatever it held before. -/
theorem getProjectLabels_after_reset (m : metrics) (L : List ProjectLabel) :
    (∀ k, (getProjectLabels (Retrieval.ok L) (resetGaugeVecMetrics m)).projectLabels k
      = if k ∈ L.map (fun e => [e.ProjectClusterName, e.Projectid, e.ProjectDisplayName,
            e.LabelKey, e.LabelValue])
        then some 1 else none) ∧
    (∀ k, (getProjectLabels (Retrieval.ok []) (resetGaugeVecMetrics m)).projectLabels k
      = none) := by
  constructor
  · intro k
    rw [getProjectLabels_eq]
    simp only [Retrieval.ok]
    rw [writeAll_const 1 (labelWrites L) (by simp [labelWrites])]
    simp [labelWrites, ProjectLabel.labelValues, resetGaugeVecMetrics, GaugeVec.Reset,
      Function.comp_def]
  · intro k
    rfl

/-! ## `getClusterConnectedState` -/

/-- Claim C2: for every registry state and every cluster-name→boolean mapping `d` of a
successful `GetClusterConnectedState` (a Go map: distinct keys), after
`getClusterConnectedState`, for every cluster `name` of the mapping with flag `flag`:
connected[name] = 1 and not-connected[name] = 0 when the flag is true,
connected[name] = 0 and not-connected[name] = 1 when it is false; so exactly one of
the two equals 1 and the other equals 0. -/
theorem getClusterConnectedState_exclusive (m : metrics) (d : GoMap Bool) (hd : d.WF)
    (name : String) (flag : Bool) (hmem : (name, flag) ∈ d) :
    (flag = true →
      (getClusterConnectedState (Retrieval.ok d) m).clusterConditionConnected [name]
        = some 1 ∧
      (getClusterConnectedState (Retrieval.ok d) m).clusterConditionNotConnected [name]
        = some 0) ∧
    (flag = false →
      (getClusterConnectedState (Retrieval.ok d) m).clusterConditionConnected [name]
        = some 0 ∧
      (getClusterConnectedState (Retrieval.ok d) m).clusterConditionNotConnected [name]
        = some 1) ∧
    ((getClusterConnectedState (Retrieval.ok d) m).clusterConditionConnected [name]
        = some 1 ↔
      (getClusterConnectedState (Retrieval.ok d) m).clusterConditionNotConnected [name]
        ≠ some 1) := by
  have hinj : Function.Injective (fun s : String => [s]) := fun a b h => by simpa using h
  have hc : (connectedWrites d).map Prod.fst = (d.map Prod.fst).map (fun s => [s]) := by
    simp [connectedWrites, Function.comp_def]
  have hn : (notConnectedWrites d).map Prod.fst = (d.map Prod.fst).map (fun s => [s]) := by
    simp [notConnectedWrites, Function.comp_def]
  have h1 := writeAll_nodup (connectedWrites d) (by rw [hc]; exact hd.map hinj)
    m.clusterConditionConnected ([name], if flag = true then 1 else 0)
    (List.mem_map.2 ⟨(name, flag), hmem, rfl⟩)
  have h2 := writeAll_nodup (notConnectedWrites d) (by rw [hn]; exact hd.map hinj)
    m.clusterConditionNotConnected ([name], if flag = true then 0 else 1)
    (List.mem_map.2 ⟨(name, flag), hmem, rfl⟩)
  rw [getClusterConnectedState_eq]
  simp only [Retrieval.ok] at *
  rw [h1, h2]
  cases flag <;> simp

/-- Instance of `getClusterConnectedState_exclusive`: scenario B, the mapping
`{clusterA: true, clusterB: false}` on the start-up registry, at `clusterB`. -/
theorem getClusterConnectedState_exclusive_witness :
    GoMap.WF ([("clusterA", true), ("clusterB", false)] : GoMap Bool) ∧
    (("clusterB", false) : String × Bool) ∈
      ([("clusterA", true), ("clusterB", false)] : GoMap Bool) ∧
    (getClusterConnectedState (Retrieval.ok [("clusterA", true), ("clusterB", false)])
      new).clusterConditionConnected ["clusterB"] = some 0 ∧
    (getClusterConnectedState (Retrieval.ok [("clusterA", true), ("clusterB", false)])
      new).clusterConditionNotConnected ["clusterB"] = some 1 :=
  ⟨by decide, by simp,
    (getClusterConnectedState_exclusive new [("clusterA", true), ("clusterB", false)]
      (by decide) "clusterB" false (by simp)).2.1 rfl⟩

/-! ## Independence of the fetchers -/

theorem run_comm (f g : FetcherCall) (h : f.kind ≠ g.kind) (m : metrics) :
    g.run (f.run m) = f.run (g.run m) := by
  cases f <;> cases g <;>
    first
    | exact absurd rfl h
    | (simp only [FetcherCall.run, getClusterConnectedState_eq,
        getDownstreamClusterVersions_eq, getProjectLabels_eq, getProjectAnnotations_eq,
        getProjectResources_eq, getRancherCustomResources_eq, getInstalledRancherVersion,
        getNumberOfClusters, getDistributions, getNumberOfNodes, getNumberOfUsers,
        getNumberOfTokens, getNumberOfProjects])

/-- Claim C9: fetchers are order-insensitive. For every registry state, every two
distinct fetchers `f` and `g` among the thirteen launched by the fast cycle and every
pair of retrieval results, applying `f` then `g` yields the same registry state as
applying `g` then `f`. -/
theorem fetchers_commute (f g : FetcherCall) (h : f.kind ≠ g.kind) (m : metrics) :
    g.run (f.run m) = f.run (g.run m) :=
  run_comm f g h m

/-- Instance of `fetchers_commute`: a failed cluster-count fetch and a successful
project-label fetch on the start-up registry. -/
theorem fetchers_commute_witness :
    (FetcherCall.numberOfClusters ⟨0, some "timeout"⟩).kind
      ≠ (FetcherCall.projectLabels (Retrieval.ok [⟨"c1", "p1", "Default", "team", "a"⟩])).kind ∧
    (FetcherCall.projectLabels (Retrieval.ok [⟨"c1", "p1", "Default", "team", "a"⟩])).run
        ((FetcherCall.numberOfClusters ⟨0, some "timeout"⟩).run new)
      = (FetcherCall.numberOfClusters ⟨0, some "timeout"⟩).run
        ((FetcherCall.projectLabels
          (Retrieval.ok [⟨"c1", "p1", "Default", "team", "a"⟩])).run new) :=
  ⟨by decide, fetchers_commute _ _ (by decide) new⟩

theorem fastTick_eq_runAll (c : ClientResults) (m : metrics) :
    fastTick c m = runAll c.calls (resetGaugeVecMetrics m) := rfl

theorem calls_kind_inj (c : ClientResults) (f g : FetcherCall) (hf : f ∈ c.calls)
    (hg : g ∈ c.calls) (h : f.kind = g.kind) : f = g := by
  simp only [ClientResults.calls, List.mem_cons, List.mem_singleton, List.mem_nil_iff,
    or_false] at hf hg
  rcases hf with rfl | rfl | rfl | rfl | rfl | rfl | rfl | rfl | rfl | rfl | rfl | rfl | rfl <;>
    rcases hg with rfl | rfl | rfl | rfl | rfl | rfl | rfl | rfl | rfl | rfl | rfl | rfl | rfl <;>
    first
    | rfl
    | exact absurd h (by simp [FetcherCall.kind])

/-- The order in which the thirteen fetchers of a tick complete does not matter: any
permutation of the launch order gives the registry of the launch order. -/
theorem runAll_perm (c : ClientResults) (o : List FetcherCall) (ho : o.Perm c.calls)
    (m : metrics) : runAll o m = runAll c.calls m := by
  unfold runAll
  refine (ho.symm.foldl_eq' ?_ m).symm
  intro f hf g hg z
  by_cases h : f.kind = g.kind
  · rw [calls_kind_inj c f g hf hg h]
  · exact run_comm f g h z

/-- The registry after one fast tick, field by field. -/
theorem fastTick_eq (c : ClientResults) (m : metrics) :
    fastTick c m =
      { m with
        installedRancherVersion :=
          emptyVec.WithLabelValuesSet [c.installedRancherVersion.val] 1
        managedClusterCount := float64 c.numberOfManagedClusters.val
        managedK3sClusterCount := float64 (c.k8sDistributions.val.index "k3s")
        managedRKEClusterCount := float64 (c.k8sDistributions.val.index "rke")
        managedRKE2ClusterCount := float64 (c.k8sDistributions.val.index "rke2")
        managedEKSClusterCount := float64 (c.k8sDistributions.val.index "eks")
        managedAKSClusterCount := float64 (c.k8sDistributions.val.index "aks")
        managedGKEClusterCount := float64 (c.k8sDistributions.val.index "gke")
        managedNodeCount := float64 c.numberOfManagedNodes.val
        clusterConditionConnected :=
          writeAll (connectedWrites c.clusterConnectedState.val) emptyVec
        clusterConditionNotConnected :=
          writeAll (notConnectedWrites c.clusterConnectedState.val) emptyVec
        downstreamClusterVersion :=
          writeAll (versionWrites c.downstreamClusterVersions.val) emptyVec
        tokenCount := float64 c.numberOfTokens.val
        userCount := float64 c.numberOfUsers.val
        projectCount := float64 c.numberofProjects.val
        projectLabels := writeAll (labelWrites c.projectLabels.val) emptyVec
        projectAnnotations := writeAll (annotationWrites c.projectAnnotations.val) emptyVec
        projectResources := writeAll (resourceWrites c.projectResourceQuota.val) emptyVec
        rancherCustomResources :=
          writeAll (customResourceWritesOf c.rancherCustomResourceCount)
            m.rancherCustomResources } := by
  simp only [fastTick, getClusterConnectedState_eq,
    getDownstreamClusterVersions_eq, getProjectLabels_eq, getProjectAnnotations_eq,
    getProjectResources_eq, getRancherCustomResources_eq, getInstalledRancherVersion,
    getNumberOfClusters, getDistributions, getNumberOfNodes, getNumberOfUsers,
    getNumberOfTokens, getNumberOfProjects, resetGaugeVecMetrics, reset_eq]

/-! ## Idempotence of the fast cycle -/

/-- Claim C7: idempotence of the fast cycle. For every registry state and every fixed
family of retrieval results (one per fetcher), running the fast cycle
(`resetGaugeVecMetrics`, then all thirteen fetchers run to completion) once and running
it twice in succession with the same results produce identical final registry
states. -/
theorem fastTick_idempotent (c : ClientResults) (m : metrics) :
    fastTick c (fastTick c m) = fastTick c m := by
  simp only [fastTick, getClusterConnectedState_eq,
    getDownstreamClusterVersions_eq, getProjectLabels_eq, getProjectAnnotations_eq,
    getProjectResources_eq, getRancherCustomResources_eq, getInstalledRancherVersion,
    getNumberOfClusters, getDistributions, getNumberOfNodes, getNumberOfUsers,
    getNumberOfTokens, getNumberOfProjects, resetGaugeVecMetrics, writeAll_idem, reset_eq]

/-! ## Label tuples present after a successful fast cycle -/

/-- Claim C3 as stated fails for the custom-resource-count vector: after a first
successful tick that reported the kind `clusters.management.cattle.io` and a second
successful tick whose retrieval returns no kind at all, the tuple of the first tick
is still present in the vector, although it is not among the entities of the second
tick's retrieval. -/
theorem fastTick_customResources_stale :
    oneKindResults.Successful ∧ quietResults.Successful ∧
    ["clusters.management.cattle.io"] ∉
      quietResults.rancherCustomResourceCount.val.map (fun kv => [kv.1]) ∧
    (fastTick quietResults (fastTick oneKindResults new)).rancherCustomResources
      ["clusters.management.cattle.io"] = some 3 := by
  refine ⟨by decide, by decide, by decide, ?_⟩
  rw [fastTick_eq, fastTick_eq]
  simp [customResourceWritesOf, customResourceWrites, writeAll, quietResults,
    oneKindResults, Retrieval.ok, GaugeVec.WithLabelValuesSet, float64]

/-- Claim C3, amended: for every prior registry state, after one fast cycle
(`resetGaugeVecMetrics` followed by all fetchers, each with a successful retrieval),
for each of the seven vectors that `resetGaugeVecMetrics` clears (installed version,
connected, not-connected, downstream cluster version, project labels, project
annotations, project resource quota) the set of label tuples present equals exactly
the set of entities returned by that cycle's retrieval; for the custom-resource-count
vector, which is not cleared, the tuples present are those of the cycle's retrieval
together with those present before the cycle. -/
theorem fastTick_label_sets (m : metrics) (c : ClientResults) (hc : c.Successful) :
    (∀ k, ((fastTick c m).installedRancherVersion k).isSome = true
      ↔ k = [c.installedRancherVersion.val]) ∧
    (∀ k, ((fastTick c m).clusterConditionConnected k).isSome = true
      ↔ k ∈ c.clusterConnectedState.val.map (fun kv => [kv.1])) ∧
    (∀ k, ((fastTick c m).clusterConditionNotConnected k).isSome = true
      ↔ k ∈ c.clusterConnectedState.val.map (fun kv => [kv.1])) ∧
    (∀ k, ((fastTick c m).downstreamClusterVersion k).isSome = true
      ↔ k ∈ c.downstreamClusterVersions.val.map (fun e => [e.Name, e.Version])) ∧
    (∀ k, ((fastTick c m).projectLabels k).isSome = true
      ↔ k ∈ c.projectLabels.val.map (fun e => [e.ProjectClusterName, e.Projectid,
          e.ProjectDisplayName, e.LabelKey, e.LabelValue])) ∧
    (∀ k, ((fastTick c m).projectAnnotations k).isSome = true
      ↔ k ∈ c.projectAnnotations.val.map (fun e => [e.ProjectClusterName, e.Projectid,
          e.ProjectDisplayName, e.AnnotationKey, e.AnnotationValue])) ∧
    (∀ k, ((fastTick c m).projectResources k).isSome = true
      ↔ k ∈ c.projectResourceQuota.val.map (fun e => [e.ProjectClusterName, e.Projectid,
          e.ProjectDisplayName, e.ResourceKey, e.ResourceType])) ∧
    (∀ k, ((fastTick c m).rancherCustomResources k).isSome = true
      ↔ k ∈ c.rancherCustomResourceCount.val.map (fun kv => [kv.1])
        ∨ (m.rancherCustomResources k).isSome = true) := by
  have herr : c.rancherCustomResourceCount.err = none := hc.2.2.2.2.2.2.2.2.2.2.2.2
  rw [fastTick_eq]
  simp only [customResourceWritesOf, herr]
  refine ⟨?_, ?_, ?_, ?_, ?_, ?_, ?_, ?_⟩
  · intro k
    by_cases h : k = [c.installedRancherVersion.val] <;>
      simp [GaugeVec.WithLabelValuesSet, emptyVec, h]
  · intro k
    simp [writeAll_isSome, connectedWrites, emptyVec, Function.comp_def]
  · intro k
    simp [writeAll_isSome, notConnectedWrites, emptyVec, Function.comp_def]
  · intro k
    simp [writeAll_isSome, versionWrites, emptyVec, Function.comp_def]
  · intro k
    simp [writeAll_isSome, labelWrites, ProjectLabel.labelValues, emptyVec,
      Function.comp_def]
  · intro k
    simp [writeAll_isSome, annotationWrites, ProjectAnnotation.labelValues, emptyVec,
      Function.comp_def]
  · intro k
    simp [writeAll_isSome, resourceWrites, ProjectResource.labelValues, emptyVec,
      Function.comp_def]
  · intro k
    simp [writeAll_isSome, customResourceWrites, Function.comp_def]

/-- Instance of `fastTick_label_sets`: the second of two successful ticks, where the
custom-resource kind reported by the first tick is still present although the second
retrieval is empty, and the installed-version vector holds exactly the fetched
version. -/
theorem fastTick_label_sets_witness :
    quietResults.Successful ∧
    (((fastTick quietResults (fastTick oneKindResults new)).installedRancherVersion
        ["v2.6.3"]).isSome = true ↔ ["v2.6.3"] = [quietResults.installedRancherVersion.val]) ∧
    (((fastTick quietResults (fastTick oneKindResults new)).rancherCustomResources
        ["clusters.management.cattle.io"]).isSome = true
      ↔ ["clusters.management.cattle.io"] ∈
          quietResults.rancherCustomResourceCount.val.map (fun kv => [kv.1])
        ∨ ((fastTick oneKindResults new).rancherCustomResources
            ["clusters.management.cattle.io"]).isSome = true) :=
  ⟨by decide,
    (fastTick_label_sets (fastTick oneKindResults new) quietResults (by decide)).1
      ["v2.6.3"],
    (fastTick_label_sets (fastTick oneKindResults new) quietResults
      (by decide)).2.2.2.2.2.2.2 ["clusters.management.cattle.io"]⟩

/-! ## Retrievals that carry an error -/

/-- Claim C1 fails on the code: `getNumberOfNodes` sets the gauge to the number that
accompanies the error. With the node count at 42 after a successful fetch, a failed
fetch returning `(0, err)` leaves the gauge at 0, not at 42. -/
theorem getNumberOfNodes_error_overwrites :
    (getNumberOfNodes (Retrieval.ok 42) new).managedNodeCount = 42 ∧
    (getNumberOfNodes ⟨0, some "connection refused"⟩
      (getNumberOfNodes (Retrieval.ok 42) new)).managedNodeCount = 0 := by
  constructor <;> simp [getNumberOfNodes, Retrieval.ok, float64]

/-- Claim C4 fails on the code: `getInstalledRancherVersion` writes the string that
accompanies the error. On a registry that `resetGaugeVecMetrics` has just emptied, a
failed fetch returning `("", err)` leaves the installed-version vector with the entry
`version = ""` at value 1. -/
theorem getInstalledRancherVersion_error_writes :
    (resetGaugeVecMetrics new).installedRancherVersion [""] = none ∧
    (getInstalledRancherVersion ⟨"", some "connection refused"⟩
      (resetGaugeVecMetrics new)).installedRancherVersion [""] = some 1 := by
  constructor
  · rfl
  · simp [getInstalledRancherVersion, GaugeVec.WithLabelValuesSet]

end Collector
